import Mathlib

/-!
Shallow embedding of the migration DSL in `src/migrate.ts` (d1-kyt).

The DSL compiles declarative table descriptions into SQL DDL strings.
Column mappings (`Record<string, ColumnDef>` built from an object literal)
are modelled as association lists in declaration order, which is the order
`Object.entries` yields for the non-numeric string keys the DSL uses.
The JavaScript guard `if (pkColumn)` tests string truthiness, so both
`null` and the empty string suppress trigger emission; the model renders
that with an explicit emptiness test.
-/

namespace D1Kyt

/-- Embeds `type SqliteType`, the closed enum of storage types. -/
inductive SqliteType where
  | TEXT
  | INTEGER
  | REAL
  | BLOB
deriving DecidableEq

/-- Rendering of a `SqliteType` literal into SQL text. -/
def SqliteType.render : SqliteType → String
  | .TEXT => "TEXT"
  | .INTEGER => "INTEGER"
  | .REAL => "REAL"
  | .BLOB => "BLOB"

/-- Embeds `interface ColumnDefInternal` from `migrate.ts`. -/
structure ColumnDefInternal where
  type : SqliteType
  isNotNull : Bool
  defaultValue : Option String
deriving DecidableEq

/-- Embeds `createColumnDef(type)`: fresh descriptor, not-null off, no default. -/
def createColumnDef (type : SqliteType) : ColumnDefInternal :=
  { type := type, isNotNull := false, defaultValue := none }

/-- Embeds the `notNull()` builder call: sets `isNotNull`, returns the descriptor. -/
def ColumnDefInternal.notNull (d : ColumnDefInternal) : ColumnDefInternal :=
  { d with isNotNull := true }

/-- Embeds the `default(value)` builder call: stores the raw SQL expression verbatim. -/
def ColumnDefInternal.default (d : ColumnDefInternal) (value : String) : ColumnDefInternal :=
  { d with defaultValue := some value }

/-- Embeds `col.text()` of the column builder. -/
def ColumnBuilder.text : ColumnDefInternal := createColumnDef .TEXT

/-- Embeds `col.integer()` of the column builder. -/
def ColumnBuilder.integer : ColumnDefInternal := createColumnDef .INTEGER

/-- Embeds `col.real()` of the column builder. -/
def ColumnBuilder.real : ColumnDefInternal := createColumnDef .REAL

/-- Embeds `col.blob()` of the column builder. -/
def ColumnBuilder.blob : ColumnDefInternal := createColumnDef .BLOB

/-- Embeds `interface TableOptions` with the defaults of `defaultTableOptions`. -/
structure TableOptions where
  id : Bool := true
  createdAt : Bool := true
  updatedAt : Bool := true
  idColumn : String := "id"
  createdAtColumn : String := "createdAt"
  updatedAtColumn : String := "updatedAt"
deriving DecidableEq

/-- Embeds `const defaultTableOptions` from `migrate.ts`. -/
def defaultTableOptions : TableOptions := {}

/-- Embeds `interface Table<T>` erased to its runtime content: the table name. -/
structure Table where
  _name : String
deriving DecidableEq

/-- Embeds `interface DefinedTable<T>`: table name plus the emitted SQL statements. -/
structure DefinedTable where
  _name : String
  sql : List String
deriving DecidableEq

/-- Embeds the per-user-column rendering loop body of `defineTable`
(the line `  "<name>" <TYPE>[ NOT NULL][ DEFAULT <expr>]`). -/
def renderUserColumn (colName : String) (colDef : ColumnDefInternal) : String :=
  "  \"" ++ colName ++ "\" " ++ colDef.type.render
    ++ (if colDef.isNotNull then " NOT NULL" else "")
    ++ (match colDef.defaultValue with
        | some v => " DEFAULT " ++ v
        | none => "")

/-- Embeds `findPrimaryKeyColumn(columns)`: first column name, or `null`. -/
def findPrimaryKeyColumn (columns : List (String × ColumnDefInternal)) : Option String :=
  match columns with
  | [] => none
  | (k, _) :: _ => some k

/-- Embeds the `CREATE TRIGGER` template literal of `defineTable`. -/
def createTriggerSql (name updatedAtColumn pkColumn : String) : String :=
  "CREATE TRIGGER \"" ++ name ++ "_" ++ updatedAtColumn ++ "_trg\"\n"
    ++ "AFTER UPDATE ON \"" ++ name ++ "\"\n"
    ++ "FOR EACH ROW\n"
    ++ "BEGIN\n"
    ++ "  UPDATE \"" ++ name ++ "\" SET \"" ++ updatedAtColumn
    ++ "\" = datetime(\x27now\x27) WHERE \"" ++ pkColumn ++ "\" = NEW.\"" ++ pkColumn ++ "\";\n"
    ++ "END;"

/-- Embeds `defineTable(name, fn, options)`, with the column callback already
applied: `columns` is the returned mapping in declaration order. -/
def defineTable (name : String) (columns : List (String × ColumnDefInternal))
    (options : TableOptions) : DefinedTable :=
  let opts := options
  let columnDefs : List String :=
    (if opts.id then ["  \"" ++ opts.idColumn ++ "\" INTEGER PRIMARY KEY AUTOINCREMENT"] else [])
      ++ columns.map (fun p => renderUserColumn p.1 p.2)
      ++ (if opts.createdAt then
            ["  \"" ++ opts.createdAtColumn ++ "\" TEXT NOT NULL DEFAULT (datetime(\x27now\x27))"]
          else [])
      ++ (if opts.updatedAt then
            ["  \"" ++ opts.updatedAtColumn ++ "\" TEXT NOT NULL DEFAULT (datetime(\x27now\x27))"]
          else [])
  let createTableSql : String :=
    "CREATE TABLE \"" ++ name ++ "\" (\n" ++ String.intercalate ",\n" columnDefs ++ "\n);"
  let triggerStatements : List String :=
    if opts.updatedAt then
      let pkColumn : Option String :=
        if opts.id then some opts.idColumn else findPrimaryKeyColumn columns
      -- the guard `if (pkColumn)` in the source is a JS truthiness test: both
      -- null and the empty string skip the trigger
      match pkColumn with
      | some pk => if pk = "" then [] else [createTriggerSql name opts.updatedAtColumn pk]
      | none => []
    else []
  { _name := name, sql := [createTableSql] ++ triggerStatements }

/-- Embeds `useTable<T>(name)`. -/
def useTable (name : String) : Table :=
  { _name := name }

/-- Embeds `interface IndexOptions` (both fields optional in the source). -/
structure IndexOptions where
  unique : Option Bool := none
  name : Option String := none
deriving DecidableEq

/-- Embeds `createIndex(table, columns, options)`. -/
def createIndex (table : Table) (columns : List String) (options : IndexOptions) : String :=
  let tableName := table._name
  let unique := options.unique.getD false
  let suffix := if unique then "uq" else "idx"
  let indexName :=
    options.name.getD (tableName ++ "_" ++ String.intercalate "_" columns ++ "_" ++ suffix)
  let columnList := String.intercalate ", " (columns.map (fun c => "\"" ++ c ++ "\""))
  let uniqueKeyword := if unique then "UNIQUE " else ""
  "CREATE " ++ uniqueKeyword ++ "INDEX \"" ++ indexName ++ "\" ON \"" ++ tableName ++ "\"("
    ++ columnList ++ ");"

/-- Embeds `dropIndex(name)`. -/
def dropIndex (name : String) : String :=
  "DROP INDEX \"" ++ name ++ "\";"

/-- Embeds `addColumn(table, column, fn)`, with the builder callback already applied. -/
def addColumn (table : Table) (column : String) (colDef : ColumnDefInternal) : String :=
  let sql :=
    "ALTER TABLE \"" ++ table._name ++ "\" ADD COLUMN \"" ++ column ++ "\" "
      ++ colDef.type.render
  let sql := if colDef.isNotNull then sql ++ " NOT NULL" else sql
  let sql :=
    match colDef.defaultValue with
    | some v => sql ++ " DEFAULT " ++ v
    | none => sql
  sql ++ ";"

/-- Embeds `dropTable(table, updatedAtColumn)`. -/
def dropTable (table : Table) (updatedAtColumn : String) : List String :=
  let name := table._name
  ["DROP TABLE \"" ++ name ++ "\";",
   "DROP TRIGGER IF EXISTS \"" ++ name ++ "_" ++ updatedAtColumn ++ "_trg\";"]

/-! Helper lemmas. -/

/-- Calling `notNull` again after `notNull` leaves the descriptor unchanged. -/
theorem notNull_notNull (d : ColumnDefInternal) : d.notNull.notNull = d.notNull := rfl

/-- Iterating `notNull` any number of times on an already-not-null descriptor is inert. -/
theorem notNull_iterate_fixed (k : Nat) (d : ColumnDefInternal) :
    ColumnDefInternal.notNull^[k] d.notNull = d.notNull := by
  induction k with
  | zero => rfl
  | succ k ih => rw [Function.iterate_succ_apply, notNull_notNull, ih]

/-- Folding `default` over a list of values keeps only the last one. -/
theorem default_foldl_last (vs : List String) (d : ColumnDefInternal) (v : String) :
    (vs ++ [v]).foldl ColumnDefInternal.default d = d.default v := by
  induction vs generalizing d with
  | nil => rfl
  | cons w ws ih => exact ih (d.default w)

/-- Every string built by `createTriggerSql` begins with the text CREATE TRIGGER. -/
theorem createTriggerSql_shape (n u pk : String) :
    ∃ t, createTriggerSql n u pk = "CREATE TRIGGER \"" ++ t := by
  refine ⟨n ++ ("_" ++ (u ++ ("_trg\"\n" ++ ("AFTER UPDATE ON \"" ++ (n
    ++ ("\"\nFOR EACH ROW\nBEGIN\n  UPDATE \"" ++ (n ++ ("\" SET \"" ++ (u
    ++ ("\" = datetime(\x27now\x27) WHERE \"" ++ (pk ++ ("\" = NEW.\"" ++ (pk
    ++ "\";\nEND;"))))))))))))), ?_⟩
  simp [createTriggerSql, String.append_assoc]
  rfl

/-- C1: with default options, `defineTable` emits a CREATE TABLE whose column
list is: the surrogate key line for id (INTEGER PRIMARY KEY AUTOINCREMENT),
then the user columns in declaration order rendered as the quoted name, the
type, an optional NOT NULL and an optional DEFAULT expression, then the
createdAt line, then the updatedAt line, joined with comma-newline, each
indented two spaces and wrapped as a CREATE TABLE statement; the second
statement is the trigger whose WHERE clause correlates on the id column. -/
theorem defineTable_default_layout (N : String) (C : List (String × ColumnDefInternal)) :
    (defineTable N C defaultTableOptions).sql =
      ["CREATE TABLE \"" ++ N ++ "\" (\n"
         ++ String.intercalate ",\n"
              (["  \"id\" INTEGER PRIMARY KEY AUTOINCREMENT"]
                ++ C.map (fun p =>
                     "  \"" ++ p.1 ++ "\" " ++ p.2.type.render
                       ++ (if p.2.isNotNull then " NOT NULL" else "")
                       ++ (match p.2.defaultValue with
                           | some v => " DEFAULT " ++ v
                           | none => ""))
                ++ ["  \"createdAt\" TEXT NOT NULL DEFAULT (datetime(\x27now\x27))",
                    "  \"updatedAt\" TEXT NOT NULL DEFAULT (datetime(\x27now\x27))"])
         ++ "\n);",
       "CREATE TRIGGER \"" ++ N ++ "_updatedAt_trg\"\nAFTER UPDATE ON \"" ++ N
         ++ "\"\nFOR EACH ROW\nBEGIN\n  UPDATE \"" ++ N
         ++ "\" SET \"updatedAt\" = datetime(\x27now\x27) WHERE \"id\" = NEW.\"id\";\nEND;"] := by
  simp [defineTable, defaultTableOptions, createTriggerSql, renderUserColumn,
    String.append_assoc]
  exact ⟨rfl, rfl⟩

/-- C2: disabling the updated-timestamp column removes both the column line and
the trigger: the output is exactly one statement, the CREATE TABLE, whose column
list holds only the (optional) surrogate key, the user columns and the
(optional) created-timestamp. -/
theorem defineTable_updatedAt_disabled (N : String) (C : List (String × ColumnDefInternal))
    (opts : TableOptions) (h : opts.updatedAt = false) :
    (defineTable N C opts).sql =
      ["CREATE TABLE \"" ++ N ++ "\" (\n"
         ++ String.intercalate ",\n"
              ((if opts.id then
                  ["  \"" ++ opts.idColumn ++ "\" INTEGER PRIMARY KEY AUTOINCREMENT"]
                else [])
                ++ C.map (fun p =>
                     "  \"" ++ p.1 ++ "\" " ++ p.2.type.render
                       ++ (if p.2.isNotNull then " NOT NULL" else "")
                       ++ (match p.2.defaultValue with
                           | some v => " DEFAULT " ++ v
                           | none => ""))
                ++ (if opts.createdAt then
                      ["  \"" ++ opts.createdAtColumn
                        ++ "\" TEXT NOT NULL DEFAULT (datetime(\x27now\x27))"]
                    else []))
         ++ "\n);"] := by
  simp [defineTable, renderUserColumn, h, String.append_assoc]

/-- Witness for C2 at a concrete table. -/
theorem defineTable_updatedAt_disabled_witness :
    (defineTable "Place" [("name", ColumnBuilder.text.notNull)]
        { defaultTableOptions with updatedAt := false }).sql =
      ["CREATE TABLE \"Place\" (\n  \"id\" INTEGER PRIMARY KEY AUTOINCREMENT,\n  \"name\" TEXT NOT NULL,\n  \"createdAt\" TEXT NOT NULL DEFAULT (datetime(\x27now\x27))\n);"] :=
  defineTable_updatedAt_disabled "Place" [("name", ColumnBuilder.text.notNull)]
    { defaultTableOptions with updatedAt := false } rfl

/-- C3 counterexample: with the surrogate key disabled and the updated-timestamp
enabled, a table with one declared user column named by the empty string gets
NO trigger at all (the source guard `if (pkColumn)` is a JS truthiness test),
while the claim requires the trigger to correlate on that first user column. -/
theorem defineTable_noId_emptyName_counterexample :
    (defineTable "T" [("", ColumnBuilder.integer)]
        { defaultTableOptions with id := false }).sql =
      ["CREATE TABLE \"T\" (\n  \"\" INTEGER,\n  \"createdAt\" TEXT NOT NULL DEFAULT (datetime(\x27now\x27)),\n  \"updatedAt\" TEXT NOT NULL DEFAULT (datetime(\x27now\x27))\n);"] := rfl

/-- C3 (amended): with the surrogate key disabled and the updated-timestamp
enabled, the WHERE clause of the trigger correlates on the first declared user
column provided that column has a non-empty name; with zero user columns, or a
first user column whose name is the empty string, no trigger is emitted and the
sql list has exactly one element. -/
theorem defineTable_noId_trigger_correlation (N : String)
    (C : List (String × ColumnDefInternal)) (opts : TableOptions)
    (hid : opts.id = false) (hup : opts.updatedAt = true) :
    (defineTable N C opts).sql =
      ["CREATE TABLE \"" ++ N ++ "\" (\n"
         ++ String.intercalate ",\n"
              (C.map (fun p =>
                  "  \"" ++ p.1 ++ "\" " ++ p.2.type.render
                    ++ (if p.2.isNotNull then " NOT NULL" else "")
                    ++ (match p.2.defaultValue with
                        | some v => " DEFAULT " ++ v
                        | none => ""))
                ++ (if opts.createdAt then
                      ["  \"" ++ opts.createdAtColumn
                        ++ "\" TEXT NOT NULL DEFAULT (datetime(\x27now\x27))"]
                    else [])
                ++ ["  \"" ++ opts.updatedAtColumn
                      ++ "\" TEXT NOT NULL DEFAULT (datetime(\x27now\x27))"])
         ++ "\n);"]
        ++ (match C with
            | [] => []
            | (c0, _) :: _ =>
              if c0 = "" then []
              else
                ["CREATE TRIGGER \"" ++ N ++ "_" ++ opts.updatedAtColumn
                   ++ "_trg\"\nAFTER UPDATE ON \"" ++ N
                   ++ "\"\nFOR EACH ROW\nBEGIN\n  UPDATE \"" ++ N ++ "\" SET \""
                   ++ opts.updatedAtColumn
                   ++ "\" = datetime(\x27now\x27) WHERE \"" ++ c0 ++ "\" = NEW.\"" ++ c0
                   ++ "\";\nEND;"]) := by
  cases C with
  | nil =>
    simp [defineTable, findPrimaryKeyColumn, renderUserColumn, hid, hup, String.append_assoc]
  | cons hd tl =>
    by_cases h0 : hd.1 = ""
    · simp [defineTable, findPrimaryKeyColumn, renderUserColumn, hid, hup, h0,
        String.append_assoc]
    · simp [defineTable, findPrimaryKeyColumn, renderUserColumn, createTriggerSql,
        hid, hup, h0, String.append_assoc]

/-- Witness for C3 at a concrete table with two user columns. -/
theorem defineTable_noId_trigger_correlation_witness :
    (defineTable "Place"
        [("uuid", ColumnBuilder.text.notNull), ("name", ColumnBuilder.text.notNull)]
        { defaultTableOptions with id := false }).sql =
      ["CREATE TABLE \"Place\" (\n  \"uuid\" TEXT NOT NULL,\n  \"name\" TEXT NOT NULL,\n  \"createdAt\" TEXT NOT NULL DEFAULT (datetime(\x27now\x27)),\n  \"updatedAt\" TEXT NOT NULL DEFAULT (datetime(\x27now\x27))\n);",
       "CREATE TRIGGER \"Place_updatedAt_trg\"\nAFTER UPDATE ON \"Place\"\nFOR EACH ROW\nBEGIN\n  UPDATE \"Place\" SET \"updatedAt\" = datetime(\x27now\x27) WHERE \"uuid\" = NEW.\"uuid\";\nEND;"] :=
  defineTable_noId_trigger_correlation "Place"
    [("uuid", ColumnBuilder.text.notNull), ("name", ColumnBuilder.text.notNull)]
    { defaultTableOptions with id := false } rfl rfl

/-- C4: with no explicit name, `createIndex` synthesizes the index name from the
table name, the column names joined by underscores, and the suffix idx when
non-unique or uq (plus the UNIQUE keyword) when unique; an explicit name
replaces the synthesized one entirely; on table Place with columns status and
cityId, non-unique, the result is exactly the specified statement. -/
theorem createIndex_name_synthesis (N nm : String) (u : Option Bool)
    (cs : List String) (_h : cs ≠ []) :
    (createIndex { _name := N } cs { unique := none, name := none }
        = "CREATE INDEX \"" ++ N ++ "_" ++ String.intercalate "_" cs ++ "_idx\" ON \"" ++ N
          ++ "\"(" ++ String.intercalate ", " (cs.map (fun c => "\"" ++ c ++ "\"")) ++ ");")
      ∧ (createIndex { _name := N } cs { unique := some true, name := none }
        = "CREATE UNIQUE INDEX \"" ++ N ++ "_" ++ String.intercalate "_" cs ++ "_uq\" ON \""
          ++ N ++ "\"(" ++ String.intercalate ", " (cs.map (fun c => "\"" ++ c ++ "\"")) ++ ");")
      ∧ (createIndex { _name := N } cs { unique := u, name := some nm }
        = "CREATE " ++ (if u.getD false then "UNIQUE " else "") ++ "INDEX \"" ++ nm
          ++ "\" ON \"" ++ N ++ "\"("
          ++ String.intercalate ", " (cs.map (fun c => "\"" ++ c ++ "\"")) ++ ");")
      ∧ createIndex { _name := "Place" } ["status", "cityId"] { unique := none, name := none }
        = "CREATE INDEX \"Place_status_cityId_idx\" ON \"Place\"(\"status\", \"cityId\");" := by
  refine ⟨?_, ?_, ?_, rfl⟩
  · simp [createIndex, String.append_assoc]
  · simp [createIndex, String.append_assoc]
  · cases u with
    | none => simp [createIndex, String.append_assoc]
    | some b => cases b <;> simp [createIndex, String.append_assoc]

/-- Witness for C4 at the Place example, with an explicit override name. -/
theorem createIndex_name_synthesis_witness :
    (createIndex { _name := "Place" } ["status", "cityId"] { unique := none, name := none }
        = "CREATE INDEX \"Place_status_cityId_idx\" ON \"Place\"(\"status\", \"cityId\");")
      ∧ (createIndex { _name := "Place" } ["status", "cityId"] { unique := some true, name := none }
        = "CREATE UNIQUE INDEX \"Place_status_cityId_uq\" ON \"Place\"(\"status\", \"cityId\");")
      ∧ (createIndex { _name := "Place" } ["status", "cityId"]
            { unique := some true, name := some "uq_place" }
        = "CREATE UNIQUE INDEX \"uq_place\" ON \"Place\"(\"status\", \"cityId\");")
      ∧ createIndex { _name := "Place" } ["status", "cityId"] { unique := none, name := none }
        = "CREATE INDEX \"Place_status_cityId_idx\" ON \"Place\"(\"status\", \"cityId\");" :=
  createIndex_name_synthesis "Place" "uq_place" (some true) ["status", "cityId"] (by decide)

/-- C5: `addColumn` emits exactly one ALTER TABLE ADD COLUMN statement with the
quoted table and column names and the rendered type, the NOT NULL fragment
present iff the descriptor is not-null and the DEFAULT fragment present iff a
default was set, terminated by a semicolon; the Place/featured example renders
exactly as specified. -/
theorem addColumn_format :
    (∀ (table : Table) (column : String) (colDef : ColumnDefInternal),
        addColumn table column colDef =
          "ALTER TABLE \"" ++ table._name ++ "\" ADD COLUMN \"" ++ column ++ "\" "
            ++ colDef.type.render
            ++ (if colDef.isNotNull then " NOT NULL" else "")
            ++ (match colDef.defaultValue with
                | some v => " DEFAULT " ++ v
                | none => "")
            ++ ";")
      ∧ addColumn { _name := "Place" } "featured" (ColumnBuilder.integer.notNull.default "0")
        = "ALTER TABLE \"Place\" ADD COLUMN \"featured\" INTEGER NOT NULL DEFAULT 0;" := by
  refine ⟨?_, rfl⟩
  intro table column colDef
  rcases colDef with ⟨ty, nn, dv⟩
  cases nn <;> cases dv <;> simp [addColumn, String.append_assoc] <;> rfl

/-- C6: `dropTable` returns exactly two statements in order, the DROP TABLE and
then the unconditional DROP TRIGGER IF EXISTS for the trigger named from the
table and updated-timestamp column names. -/
theorem dropTable_statements (table : Table) (updatedAtColumn : String) :
    dropTable table updatedAtColumn =
      ["DROP TABLE \"" ++ table._name ++ "\";",
       "DROP TRIGGER IF EXISTS \"" ++ table._name ++ "_" ++ updatedAtColumn ++ "_trg\";"] := rfl

/-- C7: the builder setters are idempotent and order-independent with respect to
the rendered column SQL: any positive number of `notNull` calls renders like one;
a sequence of `default` calls ending in a value renders like a single call with
that value (last value wins); the setters only set (`isNotNull` to true,
`defaultValue` to the given value); and interleaving `notNull` with `default` in
either order renders identically. -/
theorem columnDef_setters_algebra :
    (∀ (d : ColumnDefInternal) (nm : String) (k : Nat),
        renderUserColumn nm (ColumnDefInternal.notNull^[k + 1] d)
          = renderUserColumn nm d.notNull)
      ∧ (∀ (d : ColumnDefInternal) (nm v : String) (vs : List String),
        renderUserColumn nm ((vs ++ [v]).foldl ColumnDefInternal.default d)
          = renderUserColumn nm (d.default v))
      ∧ (∀ (d : ColumnDefInternal), d.notNull.isNotNull = true)
      ∧ (∀ (d : ColumnDefInternal) (v : String), (d.default v).defaultValue = some v)
      ∧ (∀ (d : ColumnDefInternal) (nm v : String),
        renderUserColumn nm (d.notNull.default v)
          = renderUserColumn nm ((d.default v).notNull)) := by
  refine ⟨?_, ?_, fun d => rfl, fun d v => rfl, fun d nm v => rfl⟩
  · intro d nm k
    rw [Function.iterate_succ_apply, notNull_iterate_fixed]
  · intro d nm v vs
    rw [default_foldl_last]

/-- C8 counterexample: custom names do not always survive to the trigger — with
the surrogate key enabled but renamed to the empty string, the JS-truthiness
guard on the correlating column suppresses the trigger entirely, so no
trigger statement named from the custom updated-at column is emitted at all. -/
theorem defineTable_customNames_counterexample :
    (defineTable "T" []
        { id := true, createdAt := true, updatedAt := true,
          idColumn := "", createdAtColumn := "created_at", updatedAtColumn := "updated_at" }).sql =
      ["CREATE TABLE \"T\" (\n  \"\" INTEGER PRIMARY KEY AUTOINCREMENT,\n  \"created_at\" TEXT NOT NULL DEFAULT (datetime(\x27now\x27)),\n  \"updated_at\" TEXT NOT NULL DEFAULT (datetime(\x27now\x27))\n);"] := rfl

/-- C8 (amended): for every table name and custom column names with a non-empty
id column name, `defineTable` propagates the custom names into the CREATE TABLE
column list, names the trigger from the table name and the custom updated-at
name, uses the custom updated-at name in the SET clause of the trigger and the
custom id name in its WHERE clause; and `dropTable` for the same table and
updated-at name drops exactly that trigger name. -/
theorem defineTable_customNames_consistency (N i c u : String)
    (C : List (String × ColumnDefInternal)) (hi : i ≠ "") :
    ((defineTable N C
        { id := true, createdAt := true, updatedAt := true,
          idColumn := i, createdAtColumn := c, updatedAtColumn := u }).sql =
      ["CREATE TABLE \"" ++ N ++ "\" (\n"
         ++ String.intercalate ",\n"
              (["  \"" ++ i ++ "\" INTEGER PRIMARY KEY AUTOINCREMENT"]
                ++ C.map (fun p =>
                     "  \"" ++ p.1 ++ "\" " ++ p.2.type.render
                       ++ (if p.2.isNotNull then " NOT NULL" else "")
                       ++ (match p.2.defaultValue with
                           | some v => " DEFAULT " ++ v
                           | none => ""))
                ++ ["  \"" ++ c ++ "\" TEXT NOT NULL DEFAULT (datetime(\x27now\x27))",
                    "  \"" ++ u ++ "\" TEXT NOT NULL DEFAULT (datetime(\x27now\x27))"])
         ++ "\n);",
       "CREATE TRIGGER \"" ++ (N ++ "_" ++ u ++ "_trg") ++ "\"\nAFTER UPDATE ON \"" ++ N
         ++ "\"\nFOR EACH ROW\nBEGIN\n  UPDATE \"" ++ N ++ "\" SET \"" ++ u
         ++ "\" = datetime(\x27now\x27) WHERE \"" ++ i ++ "\" = NEW.\"" ++ i ++ "\";\nEND;"])
      ∧ dropTable { _name := N } u =
          ["DROP TABLE \"" ++ N ++ "\";",
           "DROP TRIGGER IF EXISTS \"" ++ (N ++ "_" ++ u ++ "_trg") ++ "\";"] := by
  constructor
  · simp [defineTable, createTriggerSql, renderUserColumn, hi, String.append_assoc]
  · simp [dropTable, String.append_assoc]

/-- Witness for C8 at concrete custom names. -/
theorem defineTable_customNames_consistency_witness :
    ((defineTable "Place" [("name", ColumnBuilder.text.notNull)]
        { id := true, createdAt := true, updatedAt := true,
          idColumn := "place_id", createdAtColumn := "created_at",
          updatedAtColumn := "updated_at" }).sql =
      ["CREATE TABLE \"Place\" (\n  \"place_id\" INTEGER PRIMARY KEY AUTOINCREMENT,\n  \"name\" TEXT NOT NULL,\n  \"created_at\" TEXT NOT NULL DEFAULT (datetime(\x27now\x27)),\n  \"updated_at\" TEXT NOT NULL DEFAULT (datetime(\x27now\x27))\n);",
       "CREATE TRIGGER \"Place_updated_at_trg\"\nAFTER UPDATE ON \"Place\"\nFOR EACH ROW\nBEGIN\n  UPDATE \"Place\" SET \"updated_at\" = datetime(\x27now\x27) WHERE \"place_id\" = NEW.\"place_id\";\nEND;"])
      ∧ dropTable { _name := "Place" } "updated_at" =
          ["DROP TABLE \"Place\";", "DROP TRIGGER IF EXISTS \"Place_updated_at_trg\";"] :=
  defineTable_customNames_consistency "Place" "place_id" "created_at" "updated_at"
    [("name", ColumnBuilder.text.notNull)] (by decide)

/-- C9: for every input, `defineTable` emits one or two statements; the first is
always the CREATE TABLE statement for the given name, and the second, when
present, is always a CREATE TRIGGER statement — table before trigger. -/
theorem defineTable_statement_order (N : String) (C : List (String × ColumnDefInternal))
    (opts : TableOptions) :
    ((defineTable N C opts).sql.length = 1 ∨ (defineTable N C opts).sql.length = 2)
      ∧ ∃ body rest,
          (defineTable N C opts).sql
              = ("CREATE TABLE \"" ++ N ++ "\" (\n" ++ body ++ "\n);") :: rest
            ∧ (rest = [] ∨ ∃ t, rest = ["CREATE TRIGGER \"" ++ t]) := by
  have hshape : ∃ body rest,
      (defineTable N C opts).sql
          = ("CREATE TABLE \"" ++ N ++ "\" (\n" ++ body ++ "\n);") :: rest
        ∧ (rest = [] ∨ ∃ t, rest = ["CREATE TRIGGER \"" ++ t]) := by
    refine ⟨String.intercalate ",\n"
        ((if opts.id then ["  \"" ++ opts.idColumn ++ "\" INTEGER PRIMARY KEY AUTOINCREMENT"]
          else [])
          ++ C.map (fun p => renderUserColumn p.1 p.2)
          ++ (if opts.createdAt then
                ["  \"" ++ opts.createdAtColumn ++ "\" TEXT NOT NULL DEFAULT (datetime(\x27now\x27))"]
              else [])
          ++ (if opts.updatedAt then
                ["  \"" ++ opts.updatedAtColumn ++ "\" TEXT NOT NULL DEFAULT (datetime(\x27now\x27))"]
              else [])),
      (if opts.updatedAt then
          (match (if opts.id then some opts.idColumn else findPrimaryKeyColumn C) with
            | some pk =>
              if pk = "" then [] else [createTriggerSql N opts.updatedAtColumn pk]
            | none => [])
        else []), rfl, ?_⟩
    by_cases hup : opts.updatedAt = true
    · simp only [hup, if_true]
      cases hpk : (if opts.id then some opts.idColumn else findPrimaryKeyColumn C) with
      | none => left; rfl
      | some pk =>
        by_cases h0 : pk = ""
        · left
          simp [h0]
        · right
          obtain ⟨t, ht⟩ := createTriggerSql_shape N opts.updatedAtColumn pk
          exact ⟨t, by simp [h0, ht]⟩
    · left
      simp [hup]
  refine ⟨?_, hshape⟩
  obtain ⟨body, rest, heq, hrest⟩ := hshape
  rcases hrest with h0 | ⟨t, h1⟩
  · left; simp [heq, h0]
  · right; simp [heq, h1]

/-- C10: `createIndex` is total on an empty column list: with no explicit name
it yields a CREATE INDEX statement with a double underscore in the synthesized
name before the idx suffix and an empty parenthesized column list, the
synthesized suffix becoming uq (with the UNIQUE keyword) when unique is
requested. -/
theorem createIndex_empty_columns_total (N : String) :
    createIndex { _name := N } [] { unique := none, name := none }
        = "CREATE INDEX \"" ++ N ++ "__idx\" ON \"" ++ N ++ "\"();"
      ∧ createIndex { _name := N } [] { unique := some true, name := none }
        = "CREATE UNIQUE INDEX \"" ++ N ++ "__uq\" ON \"" ++ N ++ "\"();" := by
  constructor <;> simp [createIndex, String.intercalate, String.append_assoc]

end D1Kyt
